import Mathlib

/-!
Verification of the `sky` VPC provisioning core (`src/vpc/__init__.py`)
against its natural-language specification.

This file shallowly embeds the pure/algorithmic parts of the source:
  * `get_network_capacity`          (src/vpc/__init__.py lines 395-401)
  * the tagging retry loop          (src/vpc/__init__.py lines 80-90)
  * `validate_cidr_block`           (src/vpc/__init__.py lines 21-55)
  * the subnet planning arithmetic and name shortening in `create_subnets`
                                    (src/vpc/__init__.py lines 249-336)
  * the quota-exhaustion handling in `create_subnet`
                                    (src/vpc/__init__.py lines 338-393)

Machine integers are modelled as `Nat`/`Int` with explicit masking where the
Python source masks; Python exceptions are modelled as explicit error values.
All definitions are computable and structurally recursive so that concrete
inputs evaluate by `decide`/`rfl` in the kernel.
-/

namespace Sky

/-! ## Python string primitives

The source manipulates names with `str.replace`, `str.split` and `len`.
These are modelled over `List Char` with structural (fuel-based) recursion,
mirroring CPython semantics: `replace` substitutes every non-overlapping
occurrence of a non-empty pattern, scanning left to right; `split(sep)` on a
one-character separator cuts at every separator occurrence and keeps empty
pieces (so the result is always non-empty). -/

/-- Decide whether `pat` is a prefix of `s` (chars compared one by one). -/
def listIsPrefix (pat s : List Char) : Bool :=
  match pat, s with
  | [], _ => true
  | _ :: _, [] => false
  | p :: ps, c :: cs => p = c && listIsPrefix ps cs

/-- Fuel-driven core of Python `str.replace`: at each position, if the
(non-empty) pattern matches, emit the replacement and skip the match,
otherwise keep one character and continue.  `fuel` bounds the number of
scanned positions; callers pass the length of `s`, which always suffices. -/
def pyReplaceAux (pat rep : List Char) : Nat → List Char → List Char
  | 0, s => s
  | _ + 1, [] => []
  | fuel + 1, c :: cs =>
    if listIsPrefix pat (c :: cs) then
      rep ++ pyReplaceAux pat rep fuel (List.drop pat.length (c :: cs))
    else
      c :: pyReplaceAux pat rep fuel cs

/-- Python `s.replace(pat, rep)` for a non-empty pattern. -/
def pyReplace (s pat rep : String) : String :=
  ⟨pyReplaceAux pat.data rep.data s.data.length s.data⟩

/-- Python `s.split(sep)` for a one-character separator, over char lists.
The result is never empty and keeps empty pieces, matching CPython. -/
def splitChar (sep : Char) : List Char → List (List Char)
  | [] => [[]]
  | c :: cs =>
    match splitChar sep cs with
    | [] => [[]]
    | g :: gs => if c = sep then [] :: g :: gs else (c :: g) :: gs

/-- Python `s.split(sep)` for a one-character separator. -/
def pySplit (s : String) (sep : Char) : List String :=
  (splitChar sep s.data).map fun cs => ⟨cs⟩

/-! ## get_network_capacity (src/vpc/__init__.py lines 395-401)

Python source:
  available_ips = (0xffffffff ^ (0xffffffff << 32-int(netmask) & 0xffffffff))-4
The shift and masks are Nat operations; the final subtraction can go below
zero (e.g. netmask 32 gives -4 in Python), so the result is an `Int`. -/

/-- Embedding of `get_network_capacity`.  `netmask` is the already-parsed
integer netmask. -/
def get_network_capacity (netmask : Nat) : Int :=
  ((0xffffffff ^^^ ((0xffffffff <<< (32 - netmask)) &&& 0xffffffff) : Nat) : Int) - 4

/-! ## The tagging retry loop (src/vpc/__init__.py lines 80-90)

Python source (the VPC-tagging instance; the same `while not tagged` shape
recurs at every tagging site):

    tagged = False
    while not tagged:
        try:
            tagged = ec2_connection.create_tags([new_vpc.id], {...})
        except boto.exception.EC2ResponseError as error:
            if error.code == 'InvalidVpcID.NotFound':
                pass
            else:
                raise boto.exception.EC2ResponseError

One invocation of `create_tags` either returns a boolean or raises an
`EC2ResponseError` carrying an error code.  The loop keeps invoking until a
truthy value is returned, swallowing the transient error code; on any other
code it executes `raise boto.exception.EC2ResponseError`, which raises the
exception CLASS itself — a fresh exception, not the caught `error` value. -/

/-- Outcome of one `create_tags` invocation. -/
inductive TagAttempt where
  | ret (b : Bool)
  | exc (code : String)
deriving DecidableEq, Repr

/-- Value thrown out of the loop.  `ec2Instance code` is an
`EC2ResponseError` instance carrying its error code (what the source
catches); `ec2ClassRaise` is the result of `raise boto.exception.EC2ResponseError`,
which re-raises the bare class and so carries nothing of the caught error. -/
inductive PyExc where
  | ec2Instance (code : String)
  | ec2ClassRaise
deriving DecidableEq, Repr

/-- Result of running the loop. -/
inductive RetryResult where
  | done (b : Bool)
  | raised (e : PyExc)
  | fuelOut
deriving DecidableEq, Repr

/-- Embedding of the `while not tagged` loop.  `op k` is the outcome of the
`(k+1)`-th `create_tags` invocation, `transient` the site's swallowed error
code, `k` the number of invocations made so far, `fuel` an upper bound on
further iterations (the Python loop is unbounded; every theorem below is
stated for a run that ends within its fuel).  Returns the loop result and
the total number of invocations made. -/
def tag_retry_loop (op : Nat → TagAttempt) (transient : String) :
    Nat → Nat → RetryResult × Nat
  | k, 0 => (.fuelOut, k)
  | k, fuel + 1 =>
    match op k with
    | .ret b => if b then (.done b, k + 1) else tag_retry_loop op transient (k + 1) fuel
    | .exc code =>
      if code = transient then tag_retry_loop op transient (k + 1) fuel
      else (.raised .ec2ClassRaise, k + 1)

/-! ## validate_cidr_block (src/vpc/__init__.py lines 21-55)

The source splits the input on `/`, converts the netmask with `int(...)`,
then runs a chain of `assert`s inside `try/except AssertionError`.  A failed
assert returns `False`; a missing `/` raises an uncaught `IndexError` from
`itemgetter(0, 1)`, and a non-integer netmask an uncaught `ValueError` from
`int(...)`, neither of which is an `AssertionError`.  The address checks are
anchored regexes of the shape `^lit\.(oct)\.(oct)\.(oct)$` in which every
alternative of every group matches only dot-free characters, so a string
matches exactly when splitting it on `.` yields components matching the
groups one by one; the embeddings below work on those components. -/

/-- Python exceptions `validate_cidr_block` can leak uncaught. -/
inductive PyErr where
  | indexError
  | valueError
deriving DecidableEq, Repr

/-- Value of a list of decimal digit characters, `none` when a non-digit
appears.  An empty list yields `some 0`; callers require nonemptiness. -/
def digitsVal (cs : List Char) : Option Nat :=
  cs.foldl
    (fun acc c =>
      match acc with
      | none => none
      | some n => if c.isDigit then some (n * 10 + (c.toNat - 48)) else none)
    (some 0)

/-- Python `int(text)` on a decimal string: surrounding whitespace is
stripped, one optional sign allowed, then at least one digit.  (Python also
accepts single underscores between digits; that sugar is not modelled and no
claim depends on it.) -/
def pyInt (s : String) : Option Int :=
  let cs := (s.data.dropWhile Char.isWhitespace).reverse.dropWhile Char.isWhitespace |>.reverse
  match cs with
  | '-' :: rest =>
    match rest, digitsVal rest with
    | _ :: _, some n => some (-(n : Int))
    | _, _ => none
  | '+' :: rest =>
    match rest, digitsVal rest with
    | _ :: _, some n => some (n : Int)
    | _, _ => none
  | rest =>
    match rest, digitsVal rest with
    | _ :: _, some n => some (n : Int)
    | _, _ => none

/-- Match of one component against the octet group of the source's RFC 1918
regexes, `[0-9]|[1-9][0-9]|[1-2][0-5][0-5]`: one digit, or two digits not
starting with 0, or three characters `[1-2][0-5][0-5]`.  Note the last
alternative covers only 100-155 and 200-255-with-low-digits; values such as
156-199 do NOT match even though they are valid octets. -/
def octet_group_match (s : String) : Bool :=
  match s.data with
  | [c] => c.isDigit
  | [c, d] => ('1' ≤ c && c ≤ '9') && d.isDigit
  | [c, d, e] => (c = '1' || c = '2') && ('0' ≤ d && d ≤ '5') && ('0' ≤ e && e ≤ '5')
  | _ => false

/-- Match of the second component of the strict 172 regex (line 31),
group `1[6-9]|2[0-9]|3[0-1]`. -/
def seg172_match (s : String) : Bool :=
  match s.data with
  | [c, d] =>
    (c = '1' && ('6' ≤ d && d ≤ '9')) || (c = '2' && d.isDigit) ||
      (c = '3' && (d = '0' || d = '1'))
  | _ => false

/-- Line 30: `^10\.(oct)\.(oct)\.(oct)$` on the dot-split components. -/
def match10 (comps : List String) : Bool :=
  match comps with
  | [a, b, c, d] => a = "10" && octet_group_match b && octet_group_match c && octet_group_match d
  | _ => false

/-- Line 31: `^172\.(1[6-9]|2[0-9]|3[0-1])\.(oct)\.(oct)$`. -/
def match172 (comps : List String) : Bool :=
  match comps with
  | [a, b, c, d] => a = "172" && seg172_match b && octet_group_match c && octet_group_match d
  | _ => false

/-- Line 32: `^192\.168\.(oct)\.(oct)$`. -/
def match192 (comps : List String) : Bool :=
  match comps with
  | [a, b, c, d] => a = "192" && b = "168" && octet_group_match c && octet_group_match d
  | _ => false

/-- Character class of the garbled regex on line 39.  The source text
`3[0-1|)\.([0-9]` opens a character class after `3` that swallows the
intended close bracket and runs to the `]` after `0-9`, so the class holds
the digits together with the literal characters bar, parentheses, dot and
open bracket. -/
def brokenClassChar (c : Char) : Bool :=
  c.isDigit || c = '|' || c = ')' || c = '.' || c = '(' || c = '['

/-- Second-component group of the garbled 172 regex on line 39.  After the
class mishap the group's alternatives are `1[6-9]`, `2[0-9]`, `3` followed
by one class character, `[1-9][0-9]`, and `[1-2][0-5][0-5]`.  The `3`-class
alternative could in principle swallow a literal dot, but every input that
reaches line 39 already passed the strict line-30-32 assert, whose
components are dot-free octet groups, so the componentwise reading below is
exact on all reachable inputs. -/
def broken172seg (s : String) : Bool :=
  match s.data with
  | [c, d] =>
    (c = '1' && ('6' ≤ d && d ≤ '9')) || (c = '2' && d.isDigit) ||
      (c = '3' && brokenClassChar d) || (('1' ≤ c && c ≤ '9') && d.isDigit)
  | [c, d, e] => (c = '1' || c = '2') && ('0' ≤ d && d ≤ '5') && ('0' ≤ e && e ≤ '5')
  | _ => false

/-- Line 39's full garbled regex, componentwise. -/
def match172broken (comps : List String) : Bool :=
  match comps with
  | [a, b, c, d] => a = "172" && broken172seg b && octet_group_match c && octet_group_match d
  | _ => false

/-- Line 33's netmask regex `(^[1-2]?[0-9]$)|(^3[0-2]$)` applied to
`str(netmask)`.  On the canonical decimal rendering of an integer,
`[1-2]?[0-9]` matches exactly 0-29 (one digit, or two digits led by 1 or 2)
and `3[0-2]` exactly 30-32; a negative value renders with `-` and matches
neither. -/
def netmask_regex_ok (n : Int) : Bool :=
  decide (0 ≤ n) && decide (n ≤ 32)

/-- Lines 46-52: the final Amazon VPC range check and `return True`. -/
def vpc_range_check (n : Int) : Except PyErr Bool :=
  if 16 ≤ n && n ≤ 28 then .ok true else .ok false

/-- Embedding of `validate_cidr_block` (lines 21-55).  `.ok b` is a normal
return of `b`; `.error e` an exception escaping the function (only
`AssertionError` is caught by the source). -/
def validate_cidr_block (cidr_block : String) : Except PyErr Bool :=
  match pySplit cidr_block '/' with
  | network_ip :: netmask_str :: _ =>
    match pyInt netmask_str with
    | none => .error .valueError
    | some netmask =>
      let comps := pySplit network_ip '.'
      -- lines 30-33: the combined RFC 1918 / netmask assert
      if (match10 comps || match172 comps || match192 comps) && netmask_regex_ok netmask then
        -- lines 36-44: per-class minimum netmask asserts
        if match10 comps then
          if 8 ≤ netmask then vpc_range_check netmask else .ok false
        else if match172broken comps then
          if 12 ≤ netmask then vpc_range_check netmask else .ok false
        else if match192 comps then
          if 16 ≤ netmask then vpc_range_check netmask else .ok false
        else vpc_range_check netmask
      else .ok false
  | _ => .error .indexError

/-- Acceptance predicate written from the words of claim C5: the address
part is four dot-separated decimal octets each in 0-255 and the prefix part
is an integer in 0-32. -/
def claim_c5_accepts (s : String) : Bool :=
  match pySplit s '/' with
  | [addr, p] =>
    (match pySplit addr '.' with
     | [a, b, c, d] =>
       [a, b, c, d].all fun o =>
         o.data ≠ [] && o.data.all Char.isDigit &&
           (match digitsVal o.data with
            | some v => v ≤ 255
            | none => false)
     | _ => false) &&
      (p.data ≠ [] && p.data.all Char.isDigit &&
        (match digitsVal p.data with
         | some v => v ≤ 32
         | none => false))
  | _ => false

/-- Characterization of what the source validator actually accepts (the
amended claim C5): the first two `/`-separated parts give an address that
matches one of the three strict RFC 1918 regexes of lines 30-32 and an
integer netmask between 16 and 28. -/
def amended_c5_accepts (s : String) : Bool :=
  match pySplit s '/' with
  | network_ip :: netmask_str :: _ =>
    match pyInt netmask_str with
    | none => false
    | some n =>
      let comps := pySplit network_ip '.'
      (match10 comps || match172 comps || match192 comps) && decide (16 ≤ n) && decide (n ≤ 28)
  | _ => false

/-! ## Subnet planning arithmetic (src/vpc/__init__.py lines 249-336)

`create_subnets` computes

    subnet_netmask = netmask+len(bin(num_subnets+len(zones)*count))-3

(line 277), optionally widens/aligns it (lines 279-285), then for `i` over
the sorted `zones*count` list computes (line 322)

    subnet_network_ip = (network_ip | (num_subnets+i << 32-subnet_netmask))

and renders it as a dotted quad (lines 323-327).  `len(bin(x))` is the
length of Python's binary literal string: `'0b'` plus the binary digits of
`x`, of which there is one for `x = 0` and `floor(log2 x) + 1` otherwise. -/

/-- Number of binary digits of `n` (1 for `n = 0`), computed with explicit
fuel so it reduces in the kernel; `fuel = n + 1` always suffices. -/
def bitDigitsAux : Nat → Nat → Nat
  | 0, _ => 0
  | fuel + 1, n => if n = 0 then 0 else bitDigitsAux fuel (n / 2) + 1

/-- Python `len(bin(n))` for `n ≥ 0`: two for the leading `0b` plus the
binary digits. -/
def pyBinLen (n : Nat) : Nat :=
  2 + (if n = 0 then 1 else bitDigitsAux (n + 1) n)

/-- Lines 277-285: the child netmask computation with the two policy
flags.  All quantities are nonnegative and Python `//` and `%` agree with
`Nat` division on them. -/
def subnet_netmask_calc (netmask num_subnets zoneCount count : Nat)
    (balanced byte_aligned : Bool) : Nat :=
  let m0 := netmask + pyBinLen (num_subnets + zoneCount * count) - 3
  let m1 := if balanced then (if m0 < 28 then m0 + (28 - m0) / 2 else m0) else m0
  if byte_aligned then (if m1 < 24 then m1 + 8 - m1 % 8 else m1) else m1

/-- Line 322: the child block's network address,
`network_ip | (index << (32 - subnet_netmask))`. -/
def sub_block_addr (network_ip index subnet_netmask : Nat) : Nat :=
  network_ip ||| (index <<< (32 - subnet_netmask))

/-- Lines 323-327: dotted-quad/netmask rendering of a block. -/
def subnet_cidr_string (ip m : Nat) : String :=
  Nat.repr (ip >>> 24) ++ "." ++ Nat.repr ((ip >>> 16) &&& 255) ++ "." ++
    Nat.repr ((ip >>> 8) &&& 255) ++ "." ++ Nat.repr (ip &&& 255) ++ "/" ++ Nat.repr m

/-- Lexicographic less-or-equal on code points, Python's string order. -/
def listLexLe : List Char → List Char → Bool
  | [], _ => true
  | _ :: _, [] => false
  | c :: cs, d :: ds => if c = d then listLexLe cs ds else decide (c < d)

/-- Python string comparison `a <= b`. -/
def strLe (a b : String) : Bool :=
  listLexLe a.data b.data

/-- Stable insertion into a sorted list of names (helper for Python
`sorted(..., key=lambda zone: zone.name)`). -/
def insertSorted (z : String) : List String → List String
  | [] => [z]
  | y :: ys => if strLe z y then z :: y :: ys else y :: insertSorted z ys

/-- Python `sorted` by name: stable ascending sort. -/
def sortByName (l : List String) : List String :=
  l.foldr insertSorted []

/-- Python `zones*count`: the list repeated `count` times. -/
def pyListMul (l : List String) (count : Nat) : List String :=
  (List.replicate count l).flatten

/-- The planning part of `create_subnets` (lines 277-327): the list of
(zone name, child CIDR string) pairs the loop submits to `create_subnet`,
in loop order.  The `i`-th entry of the sorted `zones*count` list gets
child index `num_subnets + i`. -/
def subnet_plan (network_ip netmask : Nat) (zoneNames : List String)
    (count num_subnets : Nat) (balanced byte_aligned : Bool) : List (String × String) :=
  let m := subnet_netmask_calc netmask num_subnets zoneNames.length count balanced byte_aligned
  (sortByName (pyListMul zoneNames count)).enum.map fun p =>
    (p.2, subnet_cidr_string (sub_block_addr network_ip (num_subnets + p.1) m) m)

/-! ## Subnet name generation and shortening (src/vpc/__init__.py lines 292-319) -/

/-- Python `str.zfill`: left-pad with zeros to width `w`. -/
def pyZfill (s : String) (w : Nat) : String :=
  if s.length < w then ⟨List.replicate (w - s.length) '0'⟩ ++ s else s

/-- Line 294: `'-' + str(1+zone.offset+(i%count)).zfill(len(str(zone.offset+count)))`. -/
def subnet_suffix (offset count i : Nat) : String :=
  "-" ++ pyZfill (Nat.repr (1 + offset + i % count)) (Nat.repr (offset + count)).length

/-- Lines 295-299: the full hyphen-joined subnet name.  `project` and
`environment` are the already-lower-cased configuration strings. -/
def subnet_name_build (project environment zone : String) (publicFlag : Bool)
    (offset count i : Nat) : String :=
  String.intercalate "-"
    ["subnet", project, environment, zone,
      (if publicFlag then "public" else "private") ++ subnet_suffix offset count i]

/-- Lines 312-317: the environment abbreviation rule.  Only the
environments `prod` and `staging` have abbreviations; any other environment
leaves the name unchanged (the flag is still consumed). -/
def env_abbrev (environment name : String) : String :=
  if environment = "prod" then pyReplace name "prod" "prd"
  else if environment = "staging" then pyReplace name "staging" "stg"
  else name

/-- Lines 302-319: the `while len(subnet_name) > 37` shortening loop with
its three once-only rules, checked in the order resource type, subnet type,
environment, and a final `break` once all three are spent.  The three
booleans are the `shortened[...]` flags; `fuel` dominates the iteration
count (each iteration either stops or sets a previously unset flag, so four
is always enough). -/
def shorten_loop (publicFlag : Bool) (environment : String) :
    Nat → Bool → Bool → Bool → String → String
  | 0, _, _, _, name => name
  | fuel + 1, rt, st, envDone, name =>
    if name.length > 37 then
      if rt = false then
        shorten_loop publicFlag environment fuel true st envDone (pyReplace name "subnet-" "")
      else if st = false then
        shorten_loop publicFlag environment fuel rt true envDone
          (if publicFlag then pyReplace name "public" "pub" else pyReplace name "private" "priv")
      else if envDone = false then
        shorten_loop publicFlag environment fuel rt st true (env_abbrev environment name)
      else name
    else name

/-- The name shortening of `create_subnets` as called on a fresh name: all
three `shortened` flags start `False`. -/
def shorten_subnet_name (publicFlag : Bool) (environment name : String) : String :=
  shorten_loop publicFlag environment 4 false false false name

/-- Shortening cascade written from the words of the spec (claim C6): a
fitting name is returned unchanged; otherwise the rules apply in fixed
priority order, each at most once, stopping as soon as the name fits, and a
name still too long after all three rules is returned as-is. -/
def shorten_spec (publicFlag : Bool) (environment name : String) : String :=
  if name.length ≤ 37 then name
  else
    let n1 := pyReplace name "subnet-" ""
    if n1.length ≤ 37 then n1
    else
      let n2 := if publicFlag then pyReplace n1 "public" "pub" else pyReplace n1 "private" "priv"
      if n2.length ≤ 37 then n2
      else env_abbrev environment n2

/-! ## Quota exhaustion in create_subnet (src/vpc/__init__.py lines 349-363)

Python source:

    except boto.exception.BotoServerError as error:
        if error.status == 400:
            ...
            if error.code == 'SubnetLimitExceeded':
                ...
                sys.exit(1)

`sys.exit(1)` raises `SystemExit(1)`, which nothing in the call chain
catches: the whole provisioning run stops with exit status 1.  On any other
creation failure the handler falls through and the following
`associate_route_table`/`create_tags` calls read the never-assigned local
`subnet`, crashing with an `UnboundLocalError`.  No code path deletes a
resource. -/

/-- Provider outcome of one `vpc_connection.create_subnet` call. -/
inductive SubnetCreateOutcome where
  | created
  | failQuota
  | fail400other (code : String)
  | failOther (status : Nat)
deriving DecidableEq, Repr

/-- Externally visible actions of the `create_subnets` loop; `deleteCall`
exists so that "no rollback" is expressible, and is never emitted. -/
inductive Action where
  | createSubnetCall (index : Nat)
  | deleteCall (index : Nat)
  | sysExit (code : Nat)
deriving DecidableEq, Repr

/-- How a run of the loop ends. -/
inductive RunStop where
  | finished
  | exited (code : Nat)
  | crashed
deriving DecidableEq, Repr

/-- The `create_subnets` loop (lines 292-334) restricted to its
`create_subnet` calls: `oracle i` is the provider's response to creating
the `i`-th planned subnet, `n` the number of subnets still planned.
Returns the trace of issued actions and how the run stopped. -/
def run_subnet_creations (oracle : Nat → SubnetCreateOutcome) : Nat → Nat → List Action × RunStop
  | _, 0 => ([], .finished)
  | i, n + 1 =>
    match oracle i with
    | .created =>
      let r := run_subnet_creations oracle (i + 1) n
      (.createSubnetCall i :: r.1, r.2)
    | .failQuota => ([.createSubnetCall i, .sysExit 1], .exited 1)
    | .fail400other _ => ([.createSubnetCall i], .crashed)
    | .failOther _ => ([.createSubnetCall i], .crashed)

/-! ## Helper lemmas -/

/-- Closed form of `get_network_capacity` on every prefix length the data
model admits: the host mask `0xffffffff ^ (0xffffffff << (32-p) & 0xffffffff)`
equals `2^(32-p) - 1`, so the function returns `2^(32-p) - 5`, one less than
the `2^(32-p) - 4` the spec states. -/
lemma get_network_capacity_closed_form (r : Nat) (hr : r ≤ 32) :
    get_network_capacity r = 2 ^ (32 - r) - 5 := by
  interval_cases r <;> decide

/-- Disjoint-bit addition: `a ||| b = a + b` when `a` is a multiple of `2^t`
and `b < 2^t`. -/
lemma lor_eq_add_of_mod_eq_zero (a b t : Nat) (hmod : a % 2 ^ t = 0) (hb : b < 2 ^ t) :
    a ||| b = a + b := by
  have hd : 2 ^ t ∣ a := Nat.dvd_of_mod_eq_zero hmod
  have h := Nat.mul_add_lt_is_or (b := b) (i := t) hb (a / 2 ^ t)
  rw [Nat.mul_div_cancel' hd] at h
  exact h.symm

/-- Value of one child block base: with a canonical parent base and an
in-range index, the bitwise-or of line 322 is plain addition. -/
lemma sub_block_addr_eq_add (base basePrefix p k : Nat)
    (hcanon : base % 2 ^ (32 - basePrefix) = 0)
    (hbp : basePrefix ≤ p) (hp : p ≤ 32) (hk : k < 2 ^ (p - basePrefix)) :
    sub_block_addr base k p = base + k * 2 ^ (32 - p) := by
  unfold sub_block_addr
  rw [Nat.shiftLeft_eq]
  refine lor_eq_add_of_mod_eq_zero base (k * 2 ^ (32 - p)) (32 - basePrefix) hcanon ?_
  have h1 : k * 2 ^ (32 - p) < 2 ^ (p - basePrefix) * 2 ^ (32 - p) :=
    Nat.mul_lt_mul_of_lt_of_le hk (Nat.le_refl _) (Nat.pos_pow_of_pos _ (by omega))
  have h2 : 2 ^ (p - basePrefix) * 2 ^ (32 - p) = 2 ^ (32 - basePrefix) := by
    rw [← pow_add]
    congr 1
    omega
  omega

/-- Unfolding of the shortening loop called with fresh flags: the nested-if
normal form the four bounded iterations reduce to. -/
lemma shorten_loop_unfold (publicFlag : Bool) (environment name : String) :
    shorten_subnet_name publicFlag environment name =
      (if name.length > 37 then
        (let n1 := pyReplace name "subnet-" ""
         if n1.length > 37 then
           (let n2 := if publicFlag then pyReplace n1 "public" "pub"
                      else pyReplace n1 "private" "priv"
            if n2.length > 37 then
              (let n3 := env_abbrev environment n2
               if n3.length > 37 then n3 else n3)
            else n2)
         else n1)
      else name) := rfl

/-! ## Claim theorems -/

/-- Claim C1 (code bug, evaluated at the failing input): for parent
`10.0.0.0/16` (network address 167772160), three zones, `count = 1`, no
policy flags and zero existing subnets, line 277 computes the child prefix
`16 + len(bin(3)) - 3 = 17`, i.e. `parentPrefixLength + floor(log2 total)`,
not the claimed `parentPrefixLength + k` with `2^k >= total` (which is 18
here); the resulting plan is two /17 halves plus a third /17 block
`10.1.0.0/17` that lies outside the parent, instead of the claimed three
/18 blocks `10.0.0.0/18`, `10.0.64.0/18`, `10.0.128.0/18`. -/
theorem create_subnets_netmask_bug :
    subnet_netmask_calc 16 0 3 1 false false = 17 ∧
    subnet_netmask_calc 16 0 3 1 false false ≠ 18 ∧
    subnet_plan 167772160 16 ["us-east-1a", "us-east-1b", "us-east-1c"] 1 0 false false =
      [("us-east-1a", "10.0.0.0/17"), ("us-east-1b", "10.0.128.0/17"),
        ("us-east-1c", "10.1.0.0/17")] := by
  refine ⟨by decide, by decide, by decide⟩

/-- Claim C2 (code bug, evaluated at the failing input): for parent
`10.1.0.0/16` (network address 167837696), three zones, `count = 1`, no
policy flags and zero existing subnets — inputs that leave room for all
three children at the correctly sized /18 — the plan assigns the identical
block `10.1.0.0/17` to the first and third zones (the index 2 shifted into
bit 16 is absorbed by the parent's own bit 16 under `|`), so the children
are not pairwise disjoint; and for parent `10.0.0.0/16` (167772160) the
third child's base address equals the parent's base plus `2^16`, the first
address past the parent, so that child is not contained in the parent. -/
theorem create_subnets_overlap_bug :
    subnet_plan 167837696 16 ["us-east-1a", "us-east-1b", "us-east-1c"] 1 0 false false =
      [("us-east-1a", "10.1.0.0/17"), ("us-east-1b", "10.1.128.0/17"),
        ("us-east-1c", "10.1.0.0/17")] ∧
    sub_block_addr 167837696 0 17 = sub_block_addr 167837696 2 17 ∧
    sub_block_addr 167772160 2 17 = 167772160 + 2 ^ (32 - 16) := by
  refine ⟨by decide, by decide, by decide⟩

/-- Claim C3, counterexample: `get_network_capacity` at prefix length 24
does not return `2^(32-24) - 4 = 252`; it returns 251. -/
theorem get_network_capacity_claim_false :
    get_network_capacity 24 ≠ 2 ^ (32 - 24) - 4 := by decide

/-- Claim C3 (amended): for every prefix length `p` in 0..32,
`get_network_capacity` returns exactly `2^(32-p) - 5` — one less than the
claimed `2^(32-p) - 4`, because the host mask `0xffffffff ^ (mask << ...)`
is already `2^(32-p) - 1` before the 4 reserved addresses are subtracted —
so `/24` gives 251 and `/28` gives 11, and the value is monotonically
non-increasing as the prefix length grows. -/
theorem get_network_capacity_amended (p q : Nat) (hq : q ≤ 32) (hpq : p ≤ q) :
    get_network_capacity p = 2 ^ (32 - p) - 5 ∧
      get_network_capacity q ≤ get_network_capacity p := by
  have hp : p ≤ 32 := hpq.trans hq
  have e1 := get_network_capacity_closed_form p hp
  have e2 := get_network_capacity_closed_form q hq
  refine ⟨e1, ?_⟩
  rw [e1, e2]
  have h2 : (2 : Int) ^ (32 - q) ≤ 2 ^ (32 - p) :=
    pow_le_pow_right₀ (by norm_num) (by omega)
  linarith

/-- Witness for the amended claim C3 at `p = 24`, `q = 28`. -/
theorem get_network_capacity_amended_witness :
    get_network_capacity 24 = 2 ^ (32 - 24) - 5 ∧
      get_network_capacity 28 ≤ get_network_capacity 24 :=
  get_network_capacity_amended 24 28 (by decide) (by decide)

/-- Claim C4 (code bug, evaluated at the failing input): the retry loop
does return the success result after exactly `k + 1` invocations when the
operation fails transiently `k` times (here `k = 2`); but on a
non-transient error (code `UnauthorizedOperation`) it stops after the first
invocation by executing `raise boto.exception.EC2ResponseError`, which
raises the bare exception class — a fresh value distinct from the caught
error instance — so the caught error value is NOT propagated upward
unchanged as the claim states. -/
theorem tag_retry_fatal_fresh_raise :
    tag_retry_loop (fun k => if k < 2 then .exc "InvalidVpcID.NotFound" else .ret true)
        "InvalidVpcID.NotFound" 0 10 = (.done true, 3) ∧
    tag_retry_loop (fun _ => .exc "UnauthorizedOperation") "InvalidVpcID.NotFound" 0 10 =
      (.raised .ec2ClassRaise, 1) ∧
    RetryResult.raised .ec2ClassRaise ≠ .raised (.ec2Instance "UnauthorizedOperation") := by
  refine ⟨by decide, by decide, by decide⟩

/-- Claim C9: the shortening rules rewrite by whole-string substring
replacement, so with project `production` and environment `prod` the full
name `subnet-production-prod-ap-southeast-2a-private-09` (49 characters,
built exactly as lines 294-299 build it for offset 8, count 2, i 0) is
shortened to `prduction-prd-ap-southeast-2a-priv-09`: the environment rule
`prod -> prd` also rewrites the `prod` inside the project token
`production`, mangling it to `prduction`. -/
theorem shorten_name_collateral :
    subnet_name_build "production" "prod" "ap-southeast-2a" false 8 2 0 =
      "subnet-production-prod-ap-southeast-2a-private-09" ∧
    shorten_subnet_name false "prod" "subnet-production-prod-ap-southeast-2a-private-09" =
      "prduction-prd-ap-southeast-2a-priv-09" := by
  refine ⟨by decide, by decide⟩

/-- Claim C6: the shortening loop of lines 302-319 equals the spec's
cascade — a name within the 37-character limit is returned unchanged, the
three rules apply in the fixed priority order (drop resource type,
abbreviate subnet type, abbreviate environment), each at most once,
stopping as soon as the name fits, and a name still over the limit after
all three rules is returned as-is. -/
theorem shorten_name_priority_order (publicFlag : Bool) (environment name : String) :
    shorten_subnet_name publicFlag environment name = shorten_spec publicFlag environment name ∧
      (name.length ≤ 37 → shorten_subnet_name publicFlag environment name = name) := by
  rw [shorten_loop_unfold]
  unfold shorten_spec
  constructor
  · by_cases h0 : name.length ≤ 37
    · rw [if_neg (by omega), if_pos h0]
    · rw [if_pos (by omega), if_neg h0]
      by_cases h1 : (pyReplace name "subnet-" "").length ≤ 37
      · simp only [if_neg (show ¬ (pyReplace name "subnet-" "").length > 37 by omega),
          if_pos h1]
      · simp only [if_pos (show (pyReplace name "subnet-" "").length > 37 by omega),
          if_neg h1]
        by_cases h2 : (if publicFlag then pyReplace (pyReplace name "subnet-" "") "public" "pub"
            else pyReplace (pyReplace name "subnet-" "") "private" "priv").length ≤ 37
        · simp only [if_neg (show ¬ (if publicFlag then
              pyReplace (pyReplace name "subnet-" "") "public" "pub"
              else pyReplace (pyReplace name "subnet-" "") "private" "priv").length > 37 by omega),
            if_pos h2]
        · simp only [if_pos (show (if publicFlag then
              pyReplace (pyReplace name "subnet-" "") "public" "pub"
              else pyReplace (pyReplace name "subnet-" "") "private" "priv").length > 37 by omega),
            if_neg h2, ite_self]
  · intro h0
    rw [if_neg (by omega)]

/-- Claim C7: for a canonical base block (no bits below the parent prefix),
a child prefix length `p` between the base prefix and 32, and two distinct
in-range indices, the blocks computed by line 322's
`networkAddress | (index << (32 - p))` are disjoint: one block's range ends
at or before the other begins. -/
theorem sub_block_disjoint (base basePrefix p i j : Nat)
    (hcanon : base % 2 ^ (32 - basePrefix) = 0)
    (hbp : basePrefix ≤ p) (hp : p ≤ 32)
    (hi : i < 2 ^ (p - basePrefix)) (hj : j < 2 ^ (p - basePrefix)) (hij : i ≠ j) :
    sub_block_addr base i p + 2 ^ (32 - p) ≤ sub_block_addr base j p ∨
      sub_block_addr base j p + 2 ^ (32 - p) ≤ sub_block_addr base i p := by
  rw [sub_block_addr_eq_add base basePrefix p i hcanon hbp hp hi,
    sub_block_addr_eq_add base basePrefix p j hcanon hbp hp hj]
  rcases Nat.lt_or_ge i j with h | h
  · left
    have : (i + 1) * 2 ^ (32 - p) ≤ j * 2 ^ (32 - p) :=
      Nat.mul_le_mul_right _ h
    calc base + i * 2 ^ (32 - p) + 2 ^ (32 - p)
        = base + (i + 1) * 2 ^ (32 - p) := by ring
      _ ≤ base + j * 2 ^ (32 - p) := by omega
  · right
    have hji : j < i := by omega
    have : (j + 1) * 2 ^ (32 - p) ≤ i * 2 ^ (32 - p) :=
      Nat.mul_le_mul_right _ hji
    calc base + j * 2 ^ (32 - p) + 2 ^ (32 - p)
        = base + (j + 1) * 2 ^ (32 - p) := by ring
      _ ≤ base + i * 2 ^ (32 - p) := by omega

/-- Witness for claim C7: base `10.0.0.0/16`, child prefix 18, indices 0
and 1. -/
theorem sub_block_disjoint_witness :
    sub_block_addr 167772160 0 18 + 2 ^ (32 - 18) ≤ sub_block_addr 167772160 1 18 ∨
      sub_block_addr 167772160 1 18 + 2 ^ (32 - 18) ≤ sub_block_addr 167772160 0 18 :=
  sub_block_disjoint 167772160 16 18 0 1 (by decide) (by decide) (by decide)
    (by decide) (by decide) (by decide)

/-- Run of the creation loop when the first `m` creations succeed and the
`(m+1)`-th hits the subnet quota: the trace is the `m + 1` issued creation
calls followed by `sys.exit(1)`, and the run stops with exit code 1. -/
lemma run_subnet_creations_quota (oracle : Nat → SubnetCreateOutcome) (i n m : Nat)
    (hm : m < n) (hok : ∀ k, k < m → oracle (i + k) = .created)
    (hq : oracle (i + m) = .failQuota) :
    run_subnet_creations oracle i n =
      ((List.range (m + 1)).map (fun k => Action.createSubnetCall (i + k)) ++
        [.sysExit 1], .exited 1) := by
  induction m generalizing i n with
  | zero =>
    cases n with
    | zero => omega
    | succ n =>
      have h : oracle i = .failQuota := by simpa using hq
      simp [run_subnet_creations, h, List.range_succ]
  | succ m ih =>
    cases n with
    | zero => omega
    | succ n =>
      have h0 : oracle i = .created := by simpa using hok 0 (Nat.succ_pos m)
      have hrec := ih (i + 1) n (by omega)
        (fun k hk => by
          have := hok (k + 1) (by omega)
          simpa [Nat.add_assoc, Nat.add_comm 1 k] using this)
        (by
          have := hq
          simpa [Nat.add_assoc, Nat.add_comm 1 m] using this)
      simp only [run_subnet_creations, h0, hrec]
      rw [List.range_succ_eq_map (m + 1)]
      simp only [List.map_cons, List.map_map, List.cons_append, Nat.add_zero, Prod.mk.injEq]
      refine ⟨?_, trivial⟩
      congr 2
      apply List.map_congr_left
      intro k _
      simp only [Function.comp_apply]
      congr 1
      omega

/-- Claim C8: when subnet creation hits the account quota
(`SubnetLimitExceeded`) at the `(m+1)`-th planned subnet, the run
terminates at once via `sys.exit(1)` (a non-zero exit condition): the trace
is exactly the creations already issued followed by the exit — no rollback
action of any kind appears, and no subnet beyond the failing one is
created. -/
theorem quota_exceeded_aborts (oracle : Nat → SubnetCreateOutcome) (n m : Nat)
    (hm : m < n) (hok : ∀ k, k < m → oracle k = .created) (hq : oracle m = .failQuota) :
    run_subnet_creations oracle 0 n =
      ((List.range (m + 1)).map Action.createSubnetCall ++ [.sysExit 1], .exited 1) ∧
    (∀ a ∈ (run_subnet_creations oracle 0 n).1, ∀ d, a ≠ Action.deleteCall d) ∧
    (∀ j, m < j → Action.createSubnetCall j ∉ (run_subnet_creations oracle 0 n).1) := by
  have h := run_subnet_creations_quota oracle 0 n m hm (by simpa using hok) (by simpa using hq)
  simp only [Nat.zero_add] at h
  refine ⟨h, ?_, ?_⟩
  · rw [h]
    intro a ha d
    simp only [List.mem_append, List.mem_map, List.mem_range, List.mem_singleton] at ha
    rcases ha with ⟨k, _, rfl⟩ | rfl <;> simp
  · intro j hj
    rw [h]
    simp only [List.mem_append, List.mem_map, List.mem_range, List.mem_singleton]
    rintro (⟨k, hk, hkj⟩ | hexit)
    · have : k = j := by
        injection hkj
      omega
    · cases hexit

/-- Witness for claim C8: three planned subnets, first creation succeeds,
second hits the quota. -/
theorem quota_exceeded_aborts_witness :
    run_subnet_creations (fun i => if i < 1 then .created else .failQuota) 0 3 =
      ((List.range 2).map Action.createSubnetCall ++ [.sysExit 1], .exited 1) ∧
    (∀ a ∈ (run_subnet_creations (fun i => if i < 1 then .created else .failQuota) 0 3).1,
      ∀ d, a ≠ Action.deleteCall d) ∧
    (∀ j, 1 < j → Action.createSubnetCall j ∉
      (run_subnet_creations (fun i => if i < 1 then .created else .failQuota) 0 3).1) :=
  quota_exceeded_aborts (fun i => if i < 1 then .created else .failQuota) 3 1
    (by decide) (fun k hk => by
      have : k = 0 := by omega
      subst this
      decide) (by decide)

/-- Claim C10: the tagging retry loop treats the returned value, not the
absence of an exception, as success.  Whenever a run ends normally with
`(done b, n)`, the final returned value `b` is true, the operation that
ended the loop (`op (n-1)`) returned a truthy value, and if the first call
returned a falsy value without raising, at least one further invocation was
made (`k + 1 < n`). -/
theorem tag_retry_truthy_termination (op : Nat → TagAttempt) (t : String)
    (fuel k n : Nat) (b : Bool)
    (h : tag_retry_loop op t k fuel = (.done b, n)) :
    b = true ∧ k < n ∧ op (n - 1) = .ret true ∧ (op k = .ret false → k + 1 < n) := by
  induction fuel generalizing k with
  | zero => simp [tag_retry_loop] at h
  | succ fuel ih =>
    cases hop : op k with
    | ret b' =>
      cases b' with
      | true =>
        simp only [tag_retry_loop, hop, if_pos] at h
        obtain ⟨hb, hn⟩ : RetryResult.done true = RetryResult.done b ∧ k + 1 = n := by
          constructor <;> [exact congrArg Prod.fst h; exact congrArg Prod.snd h]
        have hb2 : b = true := by
          cases hb
          rfl
        subst hb2
        refine ⟨rfl, by omega, ?_, ?_⟩
        · have : n - 1 = k := by omega
          rw [this, hop]
        · intro hfalse
          injection hfalse with hbb
          cases hbb
      | false =>
        simp only [tag_retry_loop, hop, Bool.false_eq_true, if_false] at h
        obtain ⟨h1, h2, h3, h4⟩ := ih (k + 1) h
        exact ⟨h1, by omega, h3, fun _ => by omega⟩
    | exc c =>
      by_cases hc : c = t
      · simp only [tag_retry_loop, hop, hc, if_pos] at h
        obtain ⟨h1, h2, h3, h4⟩ := ih (k + 1) h
        refine ⟨h1, by omega, h3, ?_⟩
        intro hfalse
        cases hfalse
      · simp only [tag_retry_loop, hop, hc, if_false] at h
        cases (congrArg Prod.fst h)

/-- Witness for claim C10: the first call returns `False` without raising,
the second returns `True`; the loop makes exactly two invocations. -/
theorem tag_retry_truthy_termination_witness :
    (true = true) ∧ 0 < 2 ∧
      (fun k => if k = 0 then TagAttempt.ret false else TagAttempt.ret true) (2 - 1) =
        .ret true ∧
      ((fun k => if k = 0 then TagAttempt.ret false else TagAttempt.ret true) 0 =
          .ret false → 0 + 1 < 2) :=
  tag_retry_truthy_termination
    (fun k => if k = 0 then TagAttempt.ret false else TagAttempt.ret true)
    "InvalidVpcID.NotFound" 5 0 2 true (by decide)

/-- Claim C5, counterexample: `10.0.0.0/8` has four decimal octets in 0-255
and a prefix in 0-32, so the claim says validation succeeds; the source
validator returns `False` for it (its netmask floor of 16 rejects it). -/
theorem validate_cidr_claim_false :
    claim_c5_accepts "10.0.0.0/8" = true ∧
      validate_cidr_block "10.0.0.0/8" = .ok false := by
  exact ⟨by decide, by rfl⟩

/-- Claim C5 (amended): validation returns `True` exactly when the first
two `/`-separated parts of the input are an address matching one of the
three strict RFC 1918 regexes of lines 30-32 (`10.oct.oct.oct`,
`172.[16-31].oct.oct`, `192.168.oct.oct`, where `oct` is the pattern
`[0-9]|[1-9][0-9]|[1-2][0-5][0-5]`, which misses 156-199 and more) and an
integer netmask `n` with `16 <= n <= 28`; a missing `/` or a non-integer
netmask escapes as an uncaught exception rather than returning `False`. -/
theorem validate_cidr_characterization (s : String) :
    validate_cidr_block s = .ok true ↔ amended_c5_accepts s = true := by
  unfold validate_cidr_block amended_c5_accepts
  cases hs : pySplit s '/' with
  | nil => simp
  | cons a rest =>
    cases rest with
    | nil => simp
    | cons b rest2 =>
      dsimp only
      cases hn : pyInt b with
      | none => simp
      | some n =>
        dsimp only
        simp only [vpc_range_check, netmask_regex_ok]
        cases h10 : match10 (pySplit a '.') <;>
          cases h172 : match172 (pySplit a '.') <;>
            cases h192 : match192 (pySplit a '.') <;>
              cases hbrk : match172broken (pySplit a '.') <;>
                (try simp only [Bool.false_or, Bool.true_or, Bool.or_true, Bool.or_false,
                  Bool.true_and, Bool.false_and, Bool.and_true, Bool.and_false,
                  if_true, if_false]) <;>
                split_ifs <;> simp_all <;> omega

end Sky
